import Mathlib

/-!
Verification development for the two ONNX Runtime Unity plugins
(`UnityONNXInferenceCVPlugin/dllmain.cpp`, embedded in namespace `CV`, and
`UnityOnnxYOLOXDetectorPlugin/UnityOnnxYOLOXDetectorPlugin/dllmain.cpp`,
embedded in namespace `YOLOX`).

Modelling conventions:
* machine `float` values are modelled as exact rationals (`ℚ`); the layout
  claims are about index arithmetic and normalization structure, not IEEE
  rounding;
* the ONNX Runtime C API is an opaque collaborator: handles produced by
  `CreateEnv` / `CreateSession` are natural-number ids supplied by an
  `Engine` record, and engine-side resource ownership is tracked in a
  `live` list of handle ids (allocation appends, release removes);
* `std::string::find(key) != npos` is embedded as the boolean substring
  test `strFind`;
* the iteration order of the `std::unordered_map` of provider actions in
  the CV plugin is implementation-defined, so `CV.LoadModel` takes the key
  order as an explicit parameter, constrained in theorems to the two
  permutations of `["CPU", "Dml"]`;
* raw C array indexing (`provider_names[index]` in the YOLOX plugin) is
  embedded over an ambient memory `Int → String`, so that reads outside
  the `[0, count)` window are visible as reads of adjacent memory.
-/

/-- `strFind s key` embeds `s.find(key) != std::string::npos`:
`key` occurs as a contiguous substring of `s`. -/
def strFind (s key : String) : Bool :=
  (List.range (s.length + 1)).any fun i => key.data.isPrefixOf (s.data.drop i)

/-- Session-option flags applied while configuring an execution provider. -/
inductive OptFlag where
  | disableMemPattern
  | sequentialExecution
  | dmlDevice (d : Nat)
deriving DecidableEq, Repr

/-- The three flags the `"Dml"` action applies:
`DisableMemPattern`, `SetSessionExecutionMode(ORT_SEQUENTIAL)`,
`OrtSessionOptionsAppendExecutionProvider_DML(session_options, 0)`. -/
def dmlFlags : List OptFlag :=
  [OptFlag.disableMemPattern, OptFlag.sequentialExecution, OptFlag.dmlDevice 0]

/-- Release calls issued to the ONNX Runtime (only those that actually free
a non-null handle). -/
inductive Ev where
  | releaseSession (h : Nat)
  | releaseEnv (h : Nat)
deriving DecidableEq, Repr

/-- `std::vector<float>::resize(n)` semantics: existing elements up to `n`
are kept, growth is value-initialized to `0`. -/
def resizeList (l : List ℚ) (n : Nat) : List ℚ :=
  l.take n ++ List.replicate (n - l.length) 0

/-- One write of the preprocessing loop body (identical in both plugins):
`input_data[ch * n_pixels + p] = image_data[p * n_channels + ch] / 255.0f`
with `n_channels = 3`. -/
def preprocessStep (np : Nat) (image : Nat → Nat) (p ch : Nat) (buf : List ℚ) : List ℚ :=
  buf.set (ch * np + p) ((image (p * 3 + ch) : ℚ) / 255)

/-- The inner channel loop `for (int ch = 0; ch < n_channels; ch++)`. -/
def pixelPass (np : Nat) (image : Nat → Nat) (p : Nat) (buf : List ℚ) : List ℚ :=
  (List.range 3).foldl (fun b ch => preprocessStep np image p ch b) buf

/-- The full preprocessing double loop
`for (int p = 0; p < n_pixels; p++) for (int ch = 0; ch < n_channels; ch++) ...`. -/
def preprocess (np : Nat) (image : Nat → Nat) (buf : List ℚ) : List ℚ :=
  (List.range np).foldl (fun b p => pixelPass np image p b) buf

/-- `std::memcpy(output_array, out_data, length * sizeof(float))`:
the first `len` floats of `src` overwrite the front of `dst`. -/
def memcpyFloats (dst src : List ℚ) (len : Nat) : List ℚ :=
  src.take len ++ dst.drop len

namespace CV

/-- Global mutable state of `UnityONNXInferenceCVPlugin/dllmain.cpp`
(`extern "C"` globals), plus the engine-side `live` handle list used to
track resource ownership. `n_channels` is the `const int 3`. -/
structure State where
  input_w : Nat
  input_h : Nat
  n_pixels : Nat
  provider_names : List String
  env : Option Nat
  session : Option Nat
  input_name : String
  output_name : String
  input_data : List ℚ
  live : List Nat

/-- `n_channels` — a `const int` in the source. -/
def n_channels : Nat := 3

/-- Zero-initialized globals before any call (`input_w = 0`, empty provider
vector, null handles, empty buffer). -/
def initState : State :=
  { input_w := 0, input_h := 0, n_pixels := 0, provider_names := []
    env := none, session := none, input_name := "", output_name := ""
    input_data := [], live := [] }

/-- Results the opaque ONNX Runtime produces during one `LoadModel` call:
the fresh env/session handle ids, the model graph names, and whether the
C++ allocator wrapper throws (the only exception source reaching the
`catch` blocks), carrying the exception message. -/
structure Engine where
  envHandle : Nat
  sessionHandle : Nat
  inputName : String
  outputName : String
  allocatorFails : Option String

/-- Everything observable from one `LoadModel` call: the new global state,
the returned message, the session-option flags applied, and whether
`ort->CreateSession` was reached. -/
structure LoadResult where
  state : State
  message : String
  flags : List OptFlag
  sessionCreated : Bool

/-- `InitOrtAPI`: fetches the API and caches the available provider names. -/
def InitOrtAPI (st : State) (available : List String) : State :=
  { st with provider_names := available }

/-- `GetProviderCount`: `provider_names.size()`. -/
def GetProviderCount (st : State) : Nat :=
  st.provider_names.length

/-- `GetProviderName` over an ambient memory `mem : Int → String` holding the
provider-name array in the window `[0, count)`:
`if (index >= 0 && index < provider_names.size()) return provider_names[index];
return nullptr;` — `none` models the `nullptr` sentinel. -/
def GetProviderName (mem : Int → String) (count : Int) (index : Int) : Option String :=
  if 0 ≤ index ∧ index < count then some (mem index) else none

/-- The action table `execution_provider_actions` maps `"CPU"` to a no-op
and `"Dml"` to the three DML flags. -/
def actionFlags (key : String) : List OptFlag :=
  if key = "Dml" then dmlFlags else []

/-- The dispatch loop over the `unordered_map`: first key in iteration
order `order` that is a substring-match of the selector. -/
def firstMatch (provider : String) (order : List String) : Option String :=
  order.find? fun key => strFind provider key

/-- `LoadModel(model_path, execution_provider, image_dims)`.
Sequencing as in the source: `CreateEnv`, `DisableTelemetryEvents`,
`CreateSessionOptions`, provider dispatch (early `return` with
"Unknown execution provider specified." when no key matches),
`CreateSession`, name retrieval (the allocator wrapper may throw, the
`catch` returns `e.what()`), then dimension bookkeeping and
`input_data.resize(n_pixels * n_channels)`. No previous handle is ever
released here. -/
def LoadModel (st : State) (eng : Engine) (provider : String)
    (dims : Nat × Nat) (order : List String) : LoadResult :=
  let st1 : State := { st with env := some eng.envHandle, live := st.live ++ [eng.envHandle] }
  match firstMatch provider order with
  | none =>
      { state := st1, message := "Unknown execution provider specified."
        flags := [], sessionCreated := false }
  | some key =>
      let flags := actionFlags key
      let st2 : State :=
        { st1 with session := some eng.sessionHandle, live := st1.live ++ [eng.sessionHandle] }
      match eng.allocatorFails with
      | some msg => { state := st2, message := msg, flags := flags, sessionCreated := true }
      | none =>
          let w := dims.1
          let h := dims.2
          let st3 : State :=
            { st2 with
              input_name := eng.inputName, output_name := eng.outputName
              input_w := w, input_h := h, n_pixels := w * h
              input_data := resizeList st2.input_data (w * h * n_channels) }
          { state := st3, message := "Model loaded successfully."
            flags := flags, sessionCreated := true }

/-- `FreeResources`: `if (session) ReleaseSession; if (env) ReleaseEnv;`.
The global pointers are not nulled by the source, only the engine-side
resources are freed. -/
def FreeResources (st : State) : State × List Ev :=
  let r1 : State × List Ev :=
    match st.session with
    | some s => ({ st with live := st.live.filter (fun x => x != s) }, [Ev.releaseSession s])
    | none => (st, [])
  match r1.1.env with
  | some e => ({ r1.1 with live := r1.1.live.filter (fun x => x != e) }, r1.2 ++ [Ev.releaseEnv e])
  | none => (r1.1, r1.2)

/-- Observable outcome of one `PerformInference` call. -/
structure InferResult where
  state : State
  output : List ℚ
  inputTensorReleased : Bool
  outputTensorReleased : Bool

/-- `PerformInference(image_data, output_array, length)`: preprocess into
`input_data`, run the model (`runOutput` is the engine's output tensor,
`none` when `ort->Run` leaves it null), and either return with no write to
`output_array`, or `memcpy` the first `length` floats. -/
def PerformInference (st : State) (image : Nat → Nat) (output_array : List ℚ)
    (length : Nat) (runOutput : Option (List ℚ)) : InferResult :=
  let st1 : State := { st with input_data := preprocess st.n_pixels image st.input_data }
  match runOutput with
  | none =>
      { state := st1, output := output_array
        inputTensorReleased := true, outputTensorReleased := false }
  | some out_data =>
      { state := st1, output := memcpyFloats output_array out_data length
        inputTensorReleased := true, outputTensorReleased := true }

end CV

namespace YOLOX

/-- Global mutable state of the YOLOX detector plugin
(`UnityOnnxYOLOXDetectorPlugin/dllmain.cpp`). `provider_count` is a plain
`int` global; `input_data` is a `malloc`-owned float buffer (`[]` models the
null/absent buffer); `alloc_bytes` records the byte count handed to `malloc`
at the last load; `input_size` is the `int input_size` global (bytes). -/
structure State where
  input_w : Nat
  input_h : Nat
  n_pixels : Nat
  provider_count : Int
  env : Option Nat
  session : Option Nat
  input_name : String
  output_name : String
  input_data : List ℚ
  input_size : Nat
  alloc_bytes : Nat
  live : List Nat

/-- `n_channels` — initialized to `3` and never written afterwards. -/
def n_channels : Nat := 3

/-- Zero-initialized globals before any call. -/
def initState : State :=
  { input_w := 0, input_h := 0, n_pixels := 0, provider_count := 0
    env := none, session := none, input_name := "", output_name := ""
    input_data := [], input_size := 0, alloc_bytes := 0, live := [] }

/-- Engine-supplied results for one `LoadModel` call (fresh handle ids and
graph names); the YOLOX plugin has no try/catch, so no exception channel. -/
structure Engine where
  envHandle : Nat
  sessionHandle : Nat
  inputName : String
  outputName : String

/-- Observable outcome of one `LoadModel` call. -/
structure LoadResult where
  state : State
  ret : Int
  flags : List OptFlag
  sessionCreated : Bool

/-- `InitOrtAPI`: fetches the API and the provider array/count. -/
def InitOrtAPI (st : State) (count : Int) : State :=
  { st with provider_count := count }

/-- `GetProviderCount`: returns the `provider_count` global. -/
def GetProviderCount (st : State) : Int :=
  st.provider_count

/-- `GetProviderName`: `return provider_names[index];` — a raw, unchecked
array read over the ambient memory holding the provider array at `[0, count)`.
The bounds are never consulted, so the result is whatever string sits at
`mem index`, in or out of the window. -/
def GetProviderName (mem : Int → String) (index : Int) : String :=
  mem index

/-- `RefreshMemory`: `free(input_data); if-style guarded releases` — in the
source all three statements are guarded by pointer checks. -/
def RefreshMemory (st : State) : State × List Ev :=
  let st1 : State := { st with input_data := [] }
  let r2 : State × List Ev :=
    match st1.session with
    | some s => ({ st1 with live := st1.live.filter (fun x => x != s) }, [Ev.releaseSession s])
    | none => (st1, [])
  match r2.1.env with
  | some e => ({ r2.1 with live := r2.1.live.filter (fun x => x != e) }, r2.2 ++ [Ev.releaseEnv e])
  | none => (r2.1, r2.2)

/-- `LoadModel(model_path, execution_provider, image_dims)`.
`return_val = 0`; `CreateEnv`; `CreateSessionOptions`; then the if/else-if
chain: a selector containing `"CPU"` sets `return_val = 1` (no flags), else
one containing `"Dml"` applies the three DML flags, else `return_val = 1`.
In every branch execution continues: `CreateSession` is always reached.
Then names, dimensions, `input_size = n_pixels * n_channels * sizeof(float)`,
and `malloc((size_t)input_size * sizeof(float*))` (8-byte pointers), with
`memset(input_data, 0, input_size)` zeroing `n_pixels * n_channels` floats.
No previous handle is released here. -/
def LoadModel (st : State) (eng : Engine) (provider : String)
    (dims : Nat × Nat) : LoadResult :=
  let st1 : State := { st with env := some eng.envHandle, live := st.live ++ [eng.envHandle] }
  let rf : Int × List OptFlag :=
    if strFind provider "CPU" then (1, [])
    else if strFind provider "Dml" then (0, dmlFlags)
    else (1, [])
  let st2 : State :=
    { st1 with session := some eng.sessionHandle, live := st1.live ++ [eng.sessionHandle] }
  let w := dims.1
  let h := dims.2
  let np := w * h
  let isize := np * n_channels * 4
  let st3 : State :=
    { st2 with
      input_name := eng.inputName, output_name := eng.outputName
      input_w := w, input_h := h, n_pixels := np
      input_size := isize, alloc_bytes := isize * 8
      input_data := List.replicate (np * n_channels) 0 }
  { state := st3, ret := rf.1, flags := rf.2, sessionCreated := true }

/-- `FreeResources`: `free(input_data); ort->ReleaseSession(session);
ort->ReleaseEnv(env);` — unconditional calls; `free(NULL)` and the ORT
release functions with a null handle are no-ops that free nothing. -/
def FreeResources (st : State) : State × List Ev :=
  let st1 : State := { st with input_data := [] }
  let r2 : State × List Ev :=
    match st1.session with
    | some s => ({ st1 with live := st1.live.filter (fun x => x != s) }, [Ev.releaseSession s])
    | none => (st1, [])
  match r2.1.env with
  | some e => ({ r2.1 with live := r2.1.live.filter (fun x => x != e) }, r2.2 ++ [Ev.releaseEnv e])
  | none => (r2.1, r2.2)

/-- Observable outcome of one `PerformInference` call. -/
structure InferResult where
  state : State
  output : List ℚ
  inputTensorReleased : Bool
  outputTensorReleased : Bool

/-- `PerformInference(image_data, output_array, length)`: the same
preprocessing double loop as the CV plugin, then `ort->Run`; when the
output tensor is `NULL` the call releases the input tensor and returns
without touching `output_array`; otherwise it copies `length` floats. -/
def PerformInference (st : State) (image : Nat → Nat) (output_array : List ℚ)
    (length : Nat) (runOutput : Option (List ℚ)) : InferResult :=
  let st1 : State := { st with input_data := preprocess st.n_pixels image st.input_data }
  match runOutput with
  | none =>
      { state := st1, output := output_array
        inputTensorReleased := true, outputTensorReleased := false }
  | some out_data =>
      { state := st1, output := memcpyFloats output_array out_data length
        inputTensorReleased := true, outputTensorReleased := true }

end YOLOX

/-! ### Preprocessing-loop lemmas (shared by both plugins) -/

theorem preprocessStep_length (np : Nat) (img : Nat → Nat) (p ch : Nat) (buf : List ℚ) :
    (preprocessStep np img p ch buf).length = buf.length := by
  simp [preprocessStep]

theorem pixelPass_eq (np : Nat) (img : Nat → Nat) (p : Nat) (buf : List ℚ) :
    pixelPass np img p buf =
      preprocessStep np img p 2 (preprocessStep np img p 1 (preprocessStep np img p 0 buf)) :=
  rfl

theorem pixelPass_length (np : Nat) (img : Nat → Nat) (p : Nat) (buf : List ℚ) :
    (pixelPass np img p buf).length = buf.length := by
  rw [pixelPass_eq, preprocessStep_length, preprocessStep_length, preprocessStep_length]

theorem foldl_pixel_length (np : Nat) (img : Nat → Nat) :
    ∀ (k : Nat) (buf : List ℚ),
      ((List.range k).foldl (fun b q => pixelPass np img q b) buf).length = buf.length := by
  intro k
  induction k with
  | zero => intro buf; rfl
  | succ k ih =>
      intro buf
      rw [List.range_succ, List.foldl_append, List.foldl_cons, List.foldl_nil,
        pixelPass_length, ih]

theorem idx_eq_parts (np c c2 p k : Nat) (hp : p < np) (hk : k < np)
    (h : c2 * np + k = c * np + p) : c2 = c ∧ k = p := by
  have h1 : (c2 * np + k) % np = k := by
    rw [Nat.add_comm, Nat.add_mul_mod_self_right]; exact Nat.mod_eq_of_lt hk
  have h2 : (c * np + p) % np = p := by
    rw [Nat.add_comm, Nat.add_mul_mod_self_right]; exact Nat.mod_eq_of_lt hp
  rw [h, h2] at h1
  subst h1
  have hnp : 0 < np := by omega
  have hmul : c2 * np = c * np := by omega
  exact ⟨Nat.eq_of_mul_eq_mul_right hnp hmul, rfl⟩

theorem pixelPass_get? (np : Nat) (img : Nat → Nat) (k c p : Nat) (buf : List ℚ)
    (hlen : buf.length = 3 * np) (hk : k < np) (hp : p < np) (hc : c < 3) :
    (pixelPass np img k buf).get? (c * np + p) =
      if p = k then some ((img (k * 3 + c) : ℚ) / 255) else buf.get? (c * np + p) := by
  rw [pixelPass_eq]
  unfold preprocessStep
  have len1 : (buf.set (0 * np + k) ((img (k * 3 + 0) : ℚ) / 255)).length = 3 * np := by
    rw [List.length_set]; exact hlen
  have len2 : ((buf.set (0 * np + k) ((img (k * 3 + 0) : ℚ) / 255)).set (1 * np + k)
      ((img (k * 3 + 1) : ℚ) / 255)).length = 3 * np := by
    rw [List.length_set]; exact len1
  rw [List.get?_set_of_lt' _ _ (by omega : 2 * np + k < _),
    List.get?_set_of_lt' _ _ (by omega : 1 * np + k < _),
    List.get?_set_of_lt' _ _ (by omega : 0 * np + k < _)]
  by_cases hpk : p = k
  · subst hpk
    have hnp : 0 < np := by omega
    interval_cases c
    · have hA2 : ¬(2 * np + p = 0 * np + p) := by omega
      have hA1 : ¬(1 * np + p = 0 * np + p) := by omega
      rw [if_neg hA2, if_neg hA1, if_pos (rfl : 0 * np + p = 0 * np + p), if_pos (rfl : p = p)]
    · have hA2 : ¬(2 * np + p = 1 * np + p) := by omega
      rw [if_neg hA2, if_pos (rfl : 1 * np + p = 1 * np + p), if_pos (rfl : p = p)]
    · rw [if_pos (rfl : 2 * np + p = 2 * np + p), if_pos (rfl : p = p)]
  · have g0 : ¬(0 * np + k = c * np + p) := fun hcon =>
      hpk ((idx_eq_parts np c 0 p k hp hk hcon).2.symm)
    have g1 : ¬(1 * np + k = c * np + p) := fun hcon =>
      hpk ((idx_eq_parts np c 1 p k hp hk hcon).2.symm)
    have g2 : ¬(2 * np + k = c * np + p) := fun hcon =>
      hpk ((idx_eq_parts np c 2 p k hp hk hcon).2.symm)
    rw [if_neg g2, if_neg g1, if_neg g0, if_neg hpk]

theorem preprocess_aux (np : Nat) (img : Nat → Nat) :
    ∀ (k : Nat) (buf : List ℚ), buf.length = 3 * np → k ≤ np →
      ∀ c, c < 3 → ∀ p, p < np →
      ((List.range k).foldl (fun b q => pixelPass np img q b) buf).get? (c * np + p) =
        if p < k then some ((img (p * 3 + c) : ℚ) / 255) else buf.get? (c * np + p) := by
  intro k
  induction k with
  | zero => intro buf _ _ c _ p _; simp
  | succ k ih =>
      intro buf hlen hk c hc p hp
      rw [List.range_succ, List.foldl_append, List.foldl_cons, List.foldl_nil]
      have hklen : ((List.range k).foldl (fun b q => pixelPass np img q b) buf).length = 3 * np := by
        rw [foldl_pixel_length]; exact hlen
      rw [pixelPass_get? np img k c p _ hklen (by omega) hp hc]
      by_cases hpk : p = k
      · subst hpk
        rw [if_pos rfl, if_pos (Nat.lt_succ_self p)]
      · rw [if_neg hpk, ih buf hlen (by omega) c hc p hp]
        by_cases hlt : p < k
        · rw [if_pos hlt, if_pos (by omega)]
        · rw [if_neg hlt, if_neg (by omega)]

theorem preprocess_get? (np : Nat) (img : Nat → Nat) (buf : List ℚ)
    (hlen : buf.length = 3 * np) (c : Nat) (hc : c < 3) (p : Nat) (hp : p < np) :
    (preprocess np img buf).get? (c * np + p) = some ((img (p * 3 + c) : ℚ) / 255) := by
  unfold preprocess
  rw [preprocess_aux np img np buf hlen (le_refl np) c hc p hp, if_pos hp]

theorem cover_decomp (np i : Nat) (hi : i < 3 * np) :
    ∃ c, c < 3 ∧ ∃ p, p < np ∧ i = c * np + p := by
  have hnp : 0 < np := by omega
  refine ⟨i / np, ?_, i % np, Nat.mod_lt i hnp, ?_⟩
  · exact (Nat.div_lt_iff_lt_mul hnp).mpr hi
  · have hdm : np * (i / np) + i % np = i := Nat.div_add_mod i np
    rw [Nat.mul_comm] at hdm
    omega

theorem performInference_cv_buffer (st : CV.State) (img : Nat → Nat) (out : List ℚ)
    (len : Nat) (ro : Option (List ℚ)) :
    (CV.PerformInference st img out len ro).state.input_data =
      preprocess st.n_pixels img st.input_data := by
  cases ro <;> rfl

theorem performInference_yx_buffer (st : YOLOX.State) (img : Nat → Nat) (out : List ℚ)
    (len : Nat) (ro : Option (List ℚ)) :
    (YOLOX.PerformInference st img out len ro).state.input_data =
      preprocess st.n_pixels img st.input_data := by
  cases ro <;> rfl

/-! ### Sample inputs used by closed witness and counterexample theorems -/

def cvEngA : CV.Engine :=
  { envHandle := 1, sessionHandle := 2, inputName := "images", outputName := "output"
    allocatorFails := none }

def cvEngB : CV.Engine :=
  { envHandle := 3, sessionHandle := 4, inputName := "images", outputName := "output"
    allocatorFails := none }

def yxEngA : YOLOX.Engine :=
  { envHandle := 1, sessionHandle := 2, inputName := "images", outputName := "output" }

def yxEngB : YOLOX.Engine :=
  { envHandle := 3, sessionHandle := 4, inputName := "images", outputName := "output" }

/-- The CV plugin state after one successful `LoadModel(model, "CPU", {2, 1})`. -/
def cvLoaded : CV.State :=
  (CV.LoadModel CV.initState cvEngA "CPU" (2, 1) ["CPU", "Dml"]).state

/-- The YOLOX plugin state after one `LoadModel(model, "Dml", {2, 1})`. -/
def yxLoaded : YOLOX.State :=
  (YOLOX.LoadModel YOLOX.initState yxEngA "Dml" (2, 1)).state

/-! ### Claim C1 -/

/-- Claim C1: for every loaded state with input width `w`, height `h` and
`n_pixels = w*h`, `PerformInference` (in both plugins) performs the layout
transform exactly as specified: for every pixel index `p < n_pixels` and
channel `c < 3`, the buffer after the call holds
`PreprocessBuffer[c*n_pixels + p] = image[p*3 + c] / 255`, and the indices
`c*n_pixels + p` cover every position of the buffer, so every element is
overwritten on every call (the result is independent of the previous
contents). Floats are modelled as exact rationals. -/
theorem infer_layout_transform (stc : CV.State) (sty : YOLOX.State)
    (w h : Nat) (img : Nat → Nat) (out : List ℚ) (len : Nat) (ro : Option (List ℚ))
    (_hwc : stc.input_w = w) (_hhc : stc.input_h = h) (hnpc : stc.n_pixels = w * h)
    (hlenc : stc.input_data.length = 3 * stc.n_pixels)
    (_hwy : sty.input_w = w) (_hhy : sty.input_h = h) (hnpy : sty.n_pixels = w * h)
    (hleny : sty.input_data.length = 3 * sty.n_pixels) :
    (∀ p, p < w * h → ∀ c, c < 3 →
        (CV.PerformInference stc img out len ro).state.input_data.get? (c * (w * h) + p)
            = some ((img (p * 3 + c) : ℚ) / 255)
        ∧ (YOLOX.PerformInference sty img out len ro).state.input_data.get? (c * (w * h) + p)
            = some ((img (p * 3 + c) : ℚ) / 255))
    ∧ (∀ i, i < 3 * (w * h) → ∃ c, c < 3 ∧ ∃ p, p < w * h ∧ i = c * (w * h) + p) := by
  constructor
  · intro p hp c hc
    constructor
    · rw [performInference_cv_buffer, ← hnpc]
      exact preprocess_get? stc.n_pixels img stc.input_data hlenc c hc p (by omega)
    · rw [performInference_yx_buffer, ← hnpy]
      exact preprocess_get? sty.n_pixels img sty.input_data hleny c hc p (by omega)
  · intro i hi
    exact cover_decomp (w * h) i hi

/-- Witness for C1 at the concrete loaded states `cvLoaded` / `yxLoaded`
(width 2, height 1), image bytes `img n = n`, no run output. -/
theorem infer_layout_transform_witness :
    (cvLoaded.input_w = 2 ∧ cvLoaded.input_h = 1 ∧ cvLoaded.n_pixels = 2 * 1
      ∧ cvLoaded.input_data.length = 3 * cvLoaded.n_pixels
      ∧ yxLoaded.input_w = 2 ∧ yxLoaded.input_h = 1 ∧ yxLoaded.n_pixels = 2 * 1
      ∧ yxLoaded.input_data.length = 3 * yxLoaded.n_pixels)
    ∧ ((∀ p, p < 2 * 1 → ∀ c, c < 3 →
        (CV.PerformInference cvLoaded (fun n => n) [] 0 none).state.input_data.get?
            (c * (2 * 1) + p) = some ((((fun n => n) (p * 3 + c) : Nat) : ℚ) / 255)
        ∧ (YOLOX.PerformInference yxLoaded (fun n => n) [] 0 none).state.input_data.get?
            (c * (2 * 1) + p) = some ((((fun n => n) (p * 3 + c) : Nat) : ℚ) / 255))
      ∧ (∀ i, i < 3 * (2 * 1) → ∃ c, c < 3 ∧ ∃ p, p < 2 * 1 ∧ i = c * (2 * 1) + p)) :=
  ⟨⟨by decide, by decide, by decide, by decide, by decide, by decide, by decide, by decide⟩,
    infer_layout_transform cvLoaded yxLoaded 2 1 (fun n => n) [] 0 none
      (by decide) (by decide) (by decide) (by decide)
      (by decide) (by decide) (by decide) (by decide)⟩

/-! ### Claim C2 -/

/-- Claim C2 counterexample: in the YOLOX plugin an unrecognized selector
("Metal" contains neither "CPU" nor "Dml" as a substring) still reaches
`ort->CreateSession`: the call constructs a session (the session global is
set to the fresh handle) and only then returns the failure status 1. This
refutes the claim that for every unrecognized selector the failure is
returned to the caller before any session construction takes place. -/
theorem unsupported_backend_counterexample :
    strFind "Metal" "CPU" = false ∧ strFind "Metal" "Dml" = false
    ∧ (YOLOX.LoadModel YOLOX.initState yxEngA "Metal" (1, 1)).sessionCreated = true
    ∧ (YOLOX.LoadModel YOLOX.initState yxEngA "Metal" (1, 1)).state.session = some 2
    ∧ (YOLOX.LoadModel YOLOX.initState yxEngA "Metal" (1, 1)).ret = 1 := by
  decide

/-- Claim C2 amended: for every selector that matches no known backend key,
the CV plugin's `LoadModel` returns the "Unknown execution provider
specified." failure before any session construction (no `CreateSession`,
session global untouched); the YOLOX plugin's `LoadModel` returns the
failure status 1 but still constructs a session. -/
theorem unsupported_backend_amended (stc : CV.State) (sty : YOLOX.State)
    (ec : CV.Engine) (ey : YOLOX.Engine) (p : String) (dims : Nat × Nat)
    (order : List String)
    (hcpu : strFind p "CPU" = false) (hdml : strFind p "Dml" = false)
    (horder : order = ["CPU", "Dml"] ∨ order = ["Dml", "CPU"]) :
    ((CV.LoadModel stc ec p dims order).message = "Unknown execution provider specified."
      ∧ (CV.LoadModel stc ec p dims order).sessionCreated = false
      ∧ (CV.LoadModel stc ec p dims order).state.session = stc.session)
    ∧ ((YOLOX.LoadModel sty ey p dims).ret = 1
      ∧ (YOLOX.LoadModel sty ey p dims).sessionCreated = true) := by
  have hfm : CV.firstMatch p order = none := by
    rcases horder with h | h <;> subst h <;> simp [CV.firstMatch, hcpu, hdml]
  refine ⟨?_, ?_⟩
  · simp [CV.LoadModel, hfm]
  · simp [YOLOX.LoadModel, hcpu, hdml]

/-- Witness for the amended C2 at selector "CUDA" (matches neither key). -/
theorem unsupported_backend_amended_witness :
    (strFind "CUDA" "CPU" = false ∧ strFind "CUDA" "Dml" = false
      ∧ (["CPU", "Dml"] = ["CPU", "Dml"] ∨ (["CPU", "Dml"] : List String) = ["Dml", "CPU"]))
    ∧ (((CV.LoadModel CV.initState cvEngA "CUDA" (1, 1) ["CPU", "Dml"]).message
          = "Unknown execution provider specified."
        ∧ (CV.LoadModel CV.initState cvEngA "CUDA" (1, 1) ["CPU", "Dml"]).sessionCreated = false
        ∧ (CV.LoadModel CV.initState cvEngA "CUDA" (1, 1) ["CPU", "Dml"]).state.session
          = CV.initState.session)
      ∧ ((YOLOX.LoadModel YOLOX.initState yxEngA "CUDA" (1, 1)).ret = 1
        ∧ (YOLOX.LoadModel YOLOX.initState yxEngA "CUDA" (1, 1)).sessionCreated = true)) :=
  ⟨⟨by decide, by decide, Or.inl rfl⟩,
    unsupported_backend_amended CV.initState YOLOX.initState cvEngA yxEngA "CUDA" (1, 1)
      ["CPU", "Dml"] (by decide) (by decide) (Or.inl rfl)⟩

/-! ### Claim C3 -/

theorem resizeList_length (l : List ℚ) (n : Nat) : (resizeList l n).length = n := by
  simp [resizeList]
  omega

theorem resizeList_get?_of_lt (l : List ℚ) (n i : Nat) (hi : i < n) (hil : i < l.length) :
    (resizeList l n).get? i = l.get? i := by
  unfold resizeList
  rw [List.get?_append (by simp; omega), List.get?_take hi]

/-- A CV state whose preprocessing buffer holds nonzero data: after
`LoadModel(model, "CPU", {2, 1})` and one inference on the constant image
byte 51, every buffer entry is `51/255`. -/
def cvLoadedFilled : CV.State :=
  (CV.PerformInference cvLoaded (fun _ => 51) [] 0 none).state

unseal Rat.mul Rat.inv in
/-- Claim C3 counterexample: calling `LoadModel` again with different
dimensions ((1,2) after (2,1)) resizes the CV plugin's buffer with
`std::vector::resize`, which retains the existing elements: the old value
`51/255` is still at position 0 after the reload, so the old contents are
NOT discarded. -/
theorem buffer_sizing_counterexample :
    cvLoadedFilled.input_data.get? 0 = some (51 / 255 : ℚ)
    ∧ (CV.LoadModel cvLoadedFilled cvEngB "CPU" (1, 2) ["CPU", "Dml"]).state.input_data.get? 0
        = some (51 / 255 : ℚ)
    ∧ (CV.LoadModel cvLoadedFilled cvEngB "CPU" (1, 2) ["CPU", "Dml"]).state.input_data.length
        = 1 * 2 * 3 := by
  decide

/-- Claim C3 amended: after every successful `LoadModel` with dimensions
`(w, h)` the CV plugin's PreprocessBuffer holds exactly `w*h*3` elements —
no more and no fewer — and reloading with different dimensions resizes it
to exactly the new `w*h*3`; but `std::vector::resize` retains old elements
at every index below both the old and the new size (contents are only
guaranteed fresh where the buffer grew), and the YOLOX plugin instead
allocates a fresh zero-filled buffer of `w*h*3` floats (its `malloc` is
passed `w*h*3*4*8` bytes — an over-allocation by `sizeof(float*)`). -/
theorem buffer_sizing_amended (stc : CV.State) (ec : CV.Engine) (p : String)
    (dims : Nat × Nat) (order : List String) (key : String)
    (hfm : CV.firstMatch p order = some key) (heng : ec.allocatorFails = none)
    (sty : YOLOX.State) (ey : YOLOX.Engine) (py : String) :
    ((CV.LoadModel stc ec p dims order).state.input_data.length = dims.1 * dims.2 * 3
      ∧ (∀ i, i < dims.1 * dims.2 * 3 → i < stc.input_data.length →
          (CV.LoadModel stc ec p dims order).state.input_data.get? i = stc.input_data.get? i))
    ∧ ((YOLOX.LoadModel sty ey py dims).state.input_data
          = List.replicate (dims.1 * dims.2 * 3) 0
      ∧ (YOLOX.LoadModel sty ey py dims).state.alloc_bytes = dims.1 * dims.2 * 3 * 4 * 8) := by
  have hbuf : (CV.LoadModel stc ec p dims order).state.input_data
      = resizeList stc.input_data (dims.1 * dims.2 * 3) := by
    simp [CV.LoadModel, hfm, heng, CV.n_channels]
  refine ⟨⟨?_, ?_⟩, ?_, ?_⟩
  · rw [hbuf, resizeList_length]
  · intro i h1 h2
    rw [hbuf]
    exact resizeList_get?_of_lt stc.input_data (dims.1 * dims.2 * 3) i h1 h2
  · simp [YOLOX.LoadModel, YOLOX.n_channels]
  · simp [YOLOX.LoadModel, YOLOX.n_channels]

/-- Witness for the amended C3: reload of `cvLoadedFilled` with dimensions
(1,2), and a YOLOX load with dimensions (1,2). -/
theorem buffer_sizing_amended_witness :
    (CV.firstMatch "CPU" ["CPU", "Dml"] = some "CPU" ∧ cvEngB.allocatorFails = none)
    ∧ (((CV.LoadModel cvLoadedFilled cvEngB "CPU" (1, 2) ["CPU", "Dml"]).state.input_data.length
          = 1 * 2 * 3
        ∧ (∀ i, i < 1 * 2 * 3 → i < cvLoadedFilled.input_data.length →
            (CV.LoadModel cvLoadedFilled cvEngB "CPU" (1, 2) ["CPU", "Dml"]).state.input_data.get? i
              = cvLoadedFilled.input_data.get? i))
      ∧ ((YOLOX.LoadModel YOLOX.initState yxEngA "Dml" (1, 2)).state.input_data
            = List.replicate (1 * 2 * 3) 0
        ∧ (YOLOX.LoadModel YOLOX.initState yxEngA "Dml" (1, 2)).state.alloc_bytes
            = 1 * 2 * 3 * 4 * 8)) :=
  ⟨⟨by decide, rfl⟩,
    buffer_sizing_amended cvLoadedFilled cvEngB "CPU" (1, 2) ["CPU", "Dml"] "CPU"
      (by decide) rfl YOLOX.initState yxEngA "Dml"⟩

/-! ### Claim C4 -/

/-- A provider-name array with exactly one entry (at address 0); the cell
beyond the array holds unrelated adjacent data. -/
def provMemA : Int → String := fun i =>
  if 0 ≤ i ∧ i < 1 then "CPUExecutionProvider" else "adjacent-A"

/-- Same array content as `provMemA` but different adjacent memory. -/
def provMemB : Int → String := fun i =>
  if 0 ≤ i ∧ i < 1 then "CPUExecutionProvider" else "adjacent-B"

/-- Claim C4 counterexample: the YOLOX plugin's `GetProviderName` is
`return provider_names[index];` with no bounds check. With one provider
(count = 1), index 1 reads the memory adjacent to the array: two memories
that agree on the entire array `[0, 1)` but differ beyond it give different
results, and no invalid sentinel is returned. -/
theorem provider_index_counterexample :
    (∀ i : Int, 0 ≤ i → i < 1 → provMemA i = provMemB i)
    ∧ YOLOX.GetProviderName provMemA 1 = "adjacent-A"
    ∧ YOLOX.GetProviderName provMemB 1 = "adjacent-B"
    ∧ YOLOX.GetProviderName provMemA 1 ≠ YOLOX.GetProviderName provMemB 1 := by
  refine ⟨?_, by decide, by decide, by decide⟩
  intro i h1 h2
  simp [provMemA, provMemB, h1, h2]

/-- Claim C4 amended: the CV plugin's `GetProviderName` bounds-checks the
index: every index outside `[0, count)` returns the null sentinel (`none`),
and the result never depends on memory adjacent to the array (two memories
agreeing on `[0, count)` give identical results at every index). The YOLOX
plugin instead performs the raw unchecked read. -/
theorem provider_index_amended :
    (∀ (mem : Int → String) (count index : Int),
        index < 0 ∨ count ≤ index → CV.GetProviderName mem count index = none)
    ∧ (∀ (mem mem2 : Int → String) (count : Int),
        (∀ i : Int, 0 ≤ i → i < count → mem i = mem2 i) →
        ∀ index : Int, CV.GetProviderName mem count index = CV.GetProviderName mem2 count index) := by
  constructor
  · intro mem count index h
    have hnc : ¬(0 ≤ index ∧ index < count) := by omega
    simp [CV.GetProviderName, hnc]
  · intro mem mem2 count hagree index
    unfold CV.GetProviderName
    by_cases hc : 0 ≤ index ∧ index < count
    · rw [if_pos hc, if_pos hc, hagree index hc.1 hc.2]
    · rw [if_neg hc, if_neg hc]

/-- Witness for the amended C4 at count 1, out-of-range index 5, and the
two memories `provMemA` / `provMemB` that agree on the array. -/
theorem provider_index_amended_witness :
    (((5 : Int) < 0 ∨ (1 : Int) ≤ 5) ∧ (∀ i : Int, 0 ≤ i → i < 1 → provMemA i = provMemB i))
    ∧ CV.GetProviderName provMemA 1 5 = none
    ∧ CV.GetProviderName provMemA 1 0 = CV.GetProviderName provMemB 1 0 :=
  ⟨⟨Or.inr (by decide), fun i h1 h2 => by simp [provMemA, provMemB, h1, h2]⟩,
    provider_index_amended.1 provMemA 1 5 (Or.inr (by decide)),
    provider_index_amended.2 provMemA provMemB 1
      (fun i h1 h2 => by simp [provMemA, provMemB, h1, h2]) 0⟩

/-! ### Claim C5 -/

/-- Claim C5 (code-bug evaluation): in the YOLOX plugin, a load with the
recognized selector "CPU" that completes without error returns status 1 —
the same status as an unrecognized selector — although the source's own
comment above the return ("Return a value of 0 if the model loads
successfully") makes 0 the success status, and "Dml" returns 0. The CPU
branch of the if/else chain sets `return_val = 1` instead of leaving 0. -/
theorem load_status_code_bug :
    (YOLOX.LoadModel YOLOX.initState yxEngA "CPU" (4, 4)).ret = 1
    ∧ (YOLOX.LoadModel YOLOX.initState yxEngA "Dml" (4, 4)).ret = 0
    ∧ (YOLOX.LoadModel YOLOX.initState yxEngA "Metal" (4, 4)).ret = 1 := by
  decide

/-! ### Claim C6 -/

/-- Claim C6 counterexample: two successive CV `LoadModel` calls with no
`FreeResources` in between. `cvLoaded` was produced by a load that
allocated env handle 1 and session handle 2 (`live = [1, 2]`); the second
load allocates env 3 and session 4 and releases nothing, so afterwards all
four handles are live simultaneously — two environments and two sessions —
refuting release-before-replace. -/
theorem reload_release_counterexample :
    cvLoaded.live = [1, 2]
    ∧ (CV.LoadModel cvLoaded cvEngB "CPU" (2, 1) ["CPU", "Dml"]).state.live = [1, 2, 3, 4] := by
  decide

/-- Claim C6 amended: `LoadModel` itself releases nothing, in either
plugin — every handle live before the call is still live after it, so the
caller must call `FreeResources` before reloading; when `FreeResources` is
interposed, the live handles after the second load are exactly the new
environment and session, in both plugins. -/
theorem reload_release_amended (st : CV.State) (eng : CV.Engine) (p : String)
    (dims : Nat × Nat) (order : List String) (s e : Nat) (key : String)
    (sty : YOLOX.State) (ey : YOLOX.Engine) (py : String) (sy ev : Nat)
    (hs : st.session = some s) (he : st.env = some e) (hlive : st.live = [e, s])
    (hfm : CV.firstMatch p order = some key)
    (hsy : sty.session = some sy) (hey : sty.env = some ev) (hlivey : sty.live = [ev, sy]) :
    ((∀ x, x ∈ st.live → x ∈ (CV.LoadModel st eng p dims order).state.live)
      ∧ (CV.LoadModel (CV.FreeResources st).1 eng p dims order).state.live
          = [eng.envHandle, eng.sessionHandle])
    ∧ ((∀ x, x ∈ sty.live → x ∈ (YOLOX.LoadModel sty ey py dims).state.live)
      ∧ (YOLOX.LoadModel (YOLOX.FreeResources sty).1 ey py dims).state.live
          = [ey.envHandle, ey.sessionHandle]) := by
  refine ⟨⟨?_, ?_⟩, ?_, ?_⟩
  · intro x hx
    cases ha : eng.allocatorFails with
    | none => simp [CV.LoadModel, hfm, ha, hx]
    | some msg => simp [CV.LoadModel, hfm, ha, hx]
  · have h1 : (CV.FreeResources st).1.live = [] := by
      rcases eq_or_ne e s with rfl | hes
      · simp [CV.FreeResources, hs, he, hlive]
      · simp [CV.FreeResources, hs, he, hlive, hes]
    cases ha : eng.allocatorFails with
    | none => simp [CV.LoadModel, hfm, ha, h1]
    | some msg => simp [CV.LoadModel, hfm, ha, h1]
  · intro x hx
    simp [YOLOX.LoadModel, hx]
  · have h1 : (YOLOX.FreeResources sty).1.live = [] := by
      rcases eq_or_ne ev sy with rfl | hes
      · simp [YOLOX.FreeResources, hsy, hey, hlivey]
      · simp [YOLOX.FreeResources, hsy, hey, hlivey, hes]
    simp [YOLOX.LoadModel, h1]

/-- Witness for the amended C6 at `cvLoaded` / `yxLoaded` (each with
session 2, env 1, live `[1, 2]`), reloaded through `cvEngB` / `yxEngB`. -/
theorem reload_release_amended_witness :
    (cvLoaded.session = some 2 ∧ cvLoaded.env = some 1 ∧ cvLoaded.live = [1, 2]
      ∧ CV.firstMatch "CPU" ["CPU", "Dml"] = some "CPU"
      ∧ yxLoaded.session = some 2 ∧ yxLoaded.env = some 1 ∧ yxLoaded.live = [1, 2])
    ∧ (((∀ x, x ∈ cvLoaded.live →
          x ∈ (CV.LoadModel cvLoaded cvEngB "CPU" (2, 1) ["CPU", "Dml"]).state.live)
      ∧ (CV.LoadModel (CV.FreeResources cvLoaded).1 cvEngB "CPU" (2, 1) ["CPU", "Dml"]).state.live
          = [cvEngB.envHandle, cvEngB.sessionHandle])
    ∧ ((∀ x, x ∈ yxLoaded.live →
          x ∈ (YOLOX.LoadModel yxLoaded yxEngB "Dml" (2, 1)).state.live)
      ∧ (YOLOX.LoadModel (YOLOX.FreeResources yxLoaded).1 yxEngB "Dml" (2, 1)).state.live
          = [yxEngB.envHandle, yxEngB.sessionHandle])) :=
  ⟨⟨by decide, by decide, by decide, by decide, by decide, by decide, by decide⟩,
    reload_release_amended cvLoaded cvEngB "CPU" (2, 1) ["CPU", "Dml"] 2 1 "CPU"
      yxLoaded yxEngB "Dml" 2 1
      (by decide) (by decide) (by decide) (by decide) (by decide) (by decide) (by decide)⟩

/-! ### Claim C7 -/

/-- Claim C7 counterexample: the selector "CPUDml" matches the accelerated
"Dml" backend key by substring, yet the YOLOX plugin applies no flags at
all (its if/else chain checks "CPU" first), refuting "every Load whose
selector matches the accelerated Dml backend applies exactly the three
flags". -/
theorem backend_flags_counterexample :
    strFind "CPUDml" "Dml" = true
    ∧ (YOLOX.LoadModel YOLOX.initState yxEngA "CPUDml" (1, 1)).flags = []
    ∧ (YOLOX.LoadModel YOLOX.initState yxEngA "CPUDml" (1, 1)).flags ≠ dmlFlags := by
  decide

/-- Claim C7 amended: for selectors matching exactly one backend key the
configuration is deterministic in both plugins and under both map
iteration orders: a selector matching "CPU" and not "Dml" applies no
flags; a selector matching "Dml" and not "CPU" applies exactly
memory-pattern-disable, sequential execution mode, and DirectML device
index 0. (A selector matching both keys takes the CPU path in the YOLOX
plugin and depends on the unordered-map iteration order in the CV one.) -/
theorem backend_flags_amended (stc : CV.State) (ec : CV.Engine) (sty : YOLOX.State)
    (ey : YOLOX.Engine) (p : String) (dims : Nat × Nat) (order : List String)
    (horder : order = ["CPU", "Dml"] ∨ order = ["Dml", "CPU"]) :
    (strFind p "CPU" = true → strFind p "Dml" = false →
        (CV.LoadModel stc ec p dims order).flags = []
        ∧ (YOLOX.LoadModel sty ey p dims).flags = [])
    ∧ (strFind p "Dml" = true → strFind p "CPU" = false →
        (CV.LoadModel stc ec p dims order).flags = dmlFlags
        ∧ (YOLOX.LoadModel sty ey p dims).flags = dmlFlags) := by
  constructor
  · intro h1 h2
    have hfm : CV.firstMatch p order = some "CPU" := by
      rcases horder with h | h <;> subst h <;> simp [CV.firstMatch, h1, h2]
    have hact : CV.actionFlags "CPU" = [] := by decide
    constructor
    · cases ha : ec.allocatorFails with
      | none => simp [CV.LoadModel, hfm, ha, hact]
      | some msg => simp [CV.LoadModel, hfm, ha, hact]
    · simp [YOLOX.LoadModel, h1]
  · intro h1 h2
    have hfm : CV.firstMatch p order = some "Dml" := by
      rcases horder with h | h <;> subst h <;> simp [CV.firstMatch, h1, h2]
    have hact : CV.actionFlags "Dml" = dmlFlags := by decide
    constructor
    · cases ha : ec.allocatorFails with
      | none => simp [CV.LoadModel, hfm, ha, hact]
      | some msg => simp [CV.LoadModel, hfm, ha, hact]
    · simp [YOLOX.LoadModel, h1, h2]

/-- Witness for the amended C7: the CPU part at selector
"CPUExecutionProvider", the Dml part at selector "Dml". -/
theorem backend_flags_amended_witness :
    ((["CPU", "Dml"] = ["CPU", "Dml"] ∨ (["CPU", "Dml"] : List String) = ["Dml", "CPU"])
      ∧ strFind "CPUExecutionProvider" "CPU" = true
      ∧ strFind "CPUExecutionProvider" "Dml" = false
      ∧ strFind "Dml" "Dml" = true ∧ strFind "Dml" "CPU" = false)
    ∧ ((CV.LoadModel CV.initState cvEngA "CPUExecutionProvider" (1, 1) ["CPU", "Dml"]).flags = []
      ∧ (YOLOX.LoadModel YOLOX.initState yxEngA "CPUExecutionProvider" (1, 1)).flags = [])
    ∧ ((CV.LoadModel CV.initState cvEngA "Dml" (1, 1) ["CPU", "Dml"]).flags = dmlFlags
      ∧ (YOLOX.LoadModel YOLOX.initState yxEngA "Dml" (1, 1)).flags = dmlFlags) :=
  ⟨⟨Or.inl rfl, by decide, by decide, by decide, by decide⟩,
    (backend_flags_amended CV.initState cvEngA YOLOX.initState yxEngA "CPUExecutionProvider"
      (1, 1) ["CPU", "Dml"] (Or.inl rfl)).1 (by decide) (by decide),
    (backend_flags_amended CV.initState cvEngA YOLOX.initState yxEngA "Dml"
      (1, 1) ["CPU", "Dml"] (Or.inl rfl)).2 (by decide) (by decide)⟩

/-! ### Claim C8 -/

/-- Claim C8: when the engine's run call leaves the output tensor null,
`PerformInference` in both plugins aborts as a silent no-op: the
caller-supplied output buffer is returned untouched, no error is signalled
(the functions are total and return normally — `void` in the source), and
the transient input tensor is still released while no output tensor is. -/
theorem infer_null_output_noop (stc : CV.State) (sty : YOLOX.State) (img : Nat → Nat)
    (out : List ℚ) (len : Nat) :
    ((CV.PerformInference stc img out len none).output = out
      ∧ (CV.PerformInference stc img out len none).inputTensorReleased = true
      ∧ (CV.PerformInference stc img out len none).outputTensorReleased = false)
    ∧ ((YOLOX.PerformInference sty img out len none).output = out
      ∧ (YOLOX.PerformInference sty img out len none).inputTensorReleased = true
      ∧ (YOLOX.PerformInference sty img out len none).outputTensorReleased = false) :=
  ⟨⟨rfl, rfl, rfl⟩, ⟨rfl, rfl, rfl⟩⟩

/-! ### Claim C9 -/

/-- Claim C9: `FreeResources` with nothing loaded (null session and
environment, and in the YOLOX plugin a null input buffer) is a safe no-op:
the state is unchanged and no handle is released; with resources loaded it
releases the session strictly before its owning environment, in both
plugins. -/
theorem unload_lifecycle :
    (∀ st : CV.State, st.session = none → st.env = none → CV.FreeResources st = (st, []))
    ∧ (∀ (st : CV.State) (s e : Nat), st.session = some s → st.env = some e →
        (CV.FreeResources st).2 = [Ev.releaseSession s, Ev.releaseEnv e])
    ∧ (∀ st : YOLOX.State, st.session = none → st.env = none → st.input_data = [] →
        YOLOX.FreeResources st = (st, []))
    ∧ (∀ (st : YOLOX.State) (s e : Nat), st.session = some s → st.env = some e →
        (YOLOX.FreeResources st).2 = [Ev.releaseSession s, Ev.releaseEnv e]) := by
  refine ⟨?_, ?_, ?_, ?_⟩
  · intro st h1 h2
    simp [CV.FreeResources, h1, h2]
  · intro st s e h1 h2
    simp [CV.FreeResources, h1, h2]
  · intro st h1 h2 h3
    cases st
    simp_all [YOLOX.FreeResources]
  · intro st s e h1 h2
    simp [YOLOX.FreeResources, h1, h2]

/-- Witness for C9: no-op on the initial (nothing-loaded) states, and
session-before-environment release order on the loaded states `cvLoaded`
(session 2, env 1) and `yxLoaded` (session 2, env 1). -/
theorem unload_lifecycle_witness :
    (CV.initState.session = none ∧ CV.initState.env = none
      ∧ YOLOX.initState.session = none ∧ YOLOX.initState.env = none
      ∧ YOLOX.initState.input_data = []
      ∧ cvLoaded.session = some 2 ∧ cvLoaded.env = some 1
      ∧ yxLoaded.session = some 2 ∧ yxLoaded.env = some 1)
    ∧ CV.FreeResources CV.initState = (CV.initState, [])
    ∧ (CV.FreeResources cvLoaded).2 = [Ev.releaseSession 2, Ev.releaseEnv 1]
    ∧ YOLOX.FreeResources YOLOX.initState = (YOLOX.initState, [])
    ∧ (YOLOX.FreeResources yxLoaded).2 = [Ev.releaseSession 2, Ev.releaseEnv 1] :=
  ⟨⟨rfl, rfl, rfl, rfl, rfl, by decide, by decide, by decide, by decide⟩,
    unload_lifecycle.1 CV.initState rfl rfl,
    unload_lifecycle.2.1 cvLoaded 2 1 (by decide) (by decide),
    unload_lifecycle.2.2.1 YOLOX.initState rfl rfl rfl,
    unload_lifecycle.2.2.2 yxLoaded 2 1 (by decide) (by decide)⟩

/-! ### Claim C10 -/

/-- Claim C10: before `InitOrtAPI` has ever been called the backend
registry is empty — the globals are zero-initialized (empty
`provider_names` vector in the CV plugin, `provider_count = 0` in the
YOLOX plugin) — so `GetProviderCount` returns 0 in both plugins rather
than garbage. -/
theorem provider_count_initial :
    CV.GetProviderCount CV.initState = 0 ∧ YOLOX.GetProviderCount YOLOX.initState = 0 :=
  ⟨rfl, rfl⟩
